import Mathlib

/-!
Verification of the job-matching and recommendation core of the
JobAgencyBackend repository (src/unnamed/part_002, second document:
`calculateMatchScore`, `calculateTotalExperience`, `getJobRecommendations`,
`getMatchReasons`, `getSimilarJobs`).

The JavaScript code is embedded shallowly:

* Numbers are rationals (the code only ever divides, multiplies, adds and
  compares; every constant is exact in ℚ) and `Math.round` is the Mathlib
  function `round` (both send q to ⌊q + 1/2⌋).
* A JavaScript value that may be absent is an `Option`; the defaulting
  idioms `x || ''`, `x || 0`, `x || 2` and the truthiness tests of the
  source are modelled by explicit helpers (`optStr`, `jsOrDefault`,
  `numTruthy`) so that the falsy behaviour of `0` and `''` is kept.
* `new Date()` — the clock read by `calculateTotalExperience` — is an
  explicit `now : Date` argument threaded through every function that
  reaches it.  Only the year and month of a date are ever used by the code.
* The Mongo collections behind `Job.find`, `JobSeekerProfile.findOne`,
  `Application.find` and `Job.findById` are lists in a `DB` record; query
  filters are `List.filter`, the sorts are the stable `List.insertionSort`
  (JavaScript `Array.prototype.sort` is stable, and the scorer feeds it a
  consistent comparator), `limit` is `List.take`.
-/

/-- Calendar instant; the code only reads `getFullYear` and `getMonth`. -/
structure Date where
  year : Int
  month : Int
deriving DecidableEq, Repr

/-- The `location` subdocument of a job or profile (`city`, `country`,
`remote`; the schema defaults `remote` to false, and the profile side never
reads it). -/
structure Location where
  city : Option String
  country : Option String
  remote : Bool
deriving DecidableEq, Repr

/-- A `salary` or `expectedSalary` subdocument: only `min` and `max` are read
by the matching core. -/
structure SalaryRange where
  min : Option ℚ
  max : Option ℚ
deriving DecidableEq, Repr

/-- The `requirements` subdocument of a job; the core reads only
`requirements.skills`. -/
structure Requirements where
  skills : Option (List String)
deriving DecidableEq, Repr

/-- A job posting, restricted to the fields the matching core reads.
`createdAt` is the timestamp the cold-start query sorts on. -/
structure Job where
  id : Nat
  title : Option String
  description : Option String
  jobType : String
  requirements : Option Requirements
  location : Option Location
  salary : Option SalaryRange
  status : String
  createdAt : Int
deriving DecidableEq, Repr

/-- One entry of `profile.experience`: `endDate` is read only when
`current` is false (the code then takes `new Date()` instead). -/
structure ExperienceEntry where
  startDate : Date
  endDate : Date
  current : Bool
deriving DecidableEq, Repr

/-- One entry of `profile.education`; only `fieldOfStudy` is read. -/
structure EducationEntry where
  fieldOfStudy : Option String
deriving DecidableEq, Repr

/-- A job-seeker profile, restricted to the fields the matching core reads.
An absent array field behaves exactly like an empty one in the source (every
use is guarded by `x && x.length > 0`), so arrays are plain lists. -/
structure JobSeekerProfile where
  user : Nat
  skills : List String
  experience : List ExperienceEntry
  education : List EducationEntry
  location : Option Location
  preferredJobTypes : List String
  expectedSalary : Option SalaryRange
deriving DecidableEq, Repr

/-- An application document: the recommendation engine reads only the
applicant and the job id. -/
structure Application where
  jobSeeker : Nat
  job : Nat
deriving DecidableEq, Repr

/-- A recommendation entry as returned by `getJobRecommendations`:
`{ job, matchScore, matchReasons }`. -/
structure ScoredJob where
  job : Job
  matchScore : Int
  matchReasons : List String
deriving DecidableEq, Repr

/-- The document store: the three collections the recommendation engine
queries. -/
structure DB where
  jobs : List Job
  profiles : List JobSeekerProfile
  applications : List Application
deriving Repr

/-- Does the character list `t` start with `s`? (helper for substring
containment). -/
def startsWithChars : List Char → List Char → Bool
  | _, [] => true
  | [], _ :: _ => false
  | a :: as, b :: bs => a == b && startsWithChars as bs

/-- Does the character list contain `t` as a contiguous run?  Mirrors
JavaScript `String.prototype.includes` at the character level. -/
def containsChars : List Char → List Char → Bool
  | [], t => t.isEmpty
  | a :: as, t => startsWithChars (a :: as) t || containsChars as t

/-- JavaScript `s.includes(sub)`. -/
def jsIncludes (s sub : String) : Bool :=
  containsChars s.data sub.data

/-- JavaScript `s.toLowerCase()` on the ASCII data the repository stores. -/
def jsToLower (s : String) : String :=
  ⟨s.data.map Char.toLower⟩

/-- JavaScript `(x || '')` on an optional string. -/
def optStr (s : Option String) : String := s.getD ""

/-- JavaScript `(x || d)` on an optional number: `undefined` and `0` are
falsy, so both fall back to `d`. -/
def jsOrDefault (x : Option ℚ) (d : ℚ) : ℚ :=
  match x with
  | some v => if v = 0 then d else v
  | none => d

/-- JavaScript truthiness of an optional number: present and nonzero. -/
def numTruthy : Option ℚ → Bool
  | none => false
  | some v => decide (v ≠ 0)

/-- The list `job.requirements?.skills || []`. -/
def jobSkillsOf (job : Job) : List String :=
  (job.requirements.bind (·.skills)).getD []

/-- `job.location?.remote` as a boolean. -/
def jobLocRemote (job : Job) : Bool :=
  match job.location with
  | some l => l.remote
  | none => false

/-- `job.location?.city || ''`. -/
def jobLocCity (job : Job) : String :=
  optStr (job.location.bind (·.city))

/-- `job.location?.country || ''`. -/
def jobLocCountry (job : Job) : String :=
  optStr (job.location.bind (·.country))

/-- The lowercased profile skills that match at least one lowercased job
requirement, where a skill matches a requirement when either string contains
the other (`req.includes(skill) || skill.includes(req)`). -/
def matchedSkills (job : Job) (profile : JobSeekerProfile) : List String :=
  let jobRequirements := (jobSkillsOf job).map jsToLower
  (profile.skills.map jsToLower).filter fun skill =>
    jobRequirements.any fun req => jsIncludes req skill || jsIncludes skill req

/-- Factor 1 of the scorer:
`(matchedSkills.length / Math.max(jobRequirements.length, 1)) * 100`. -/
def skillScore (job : Job) (profile : JobSeekerProfile) : ℚ :=
  ((matchedSkills job profile).length : ℚ)
    / ((max ((jobSkillsOf job).map jsToLower).length 1 : ℕ) : ℚ) * 100

/-- Whole months between two dates:
`(e.year - s.year) * 12 + (e.month - s.month)`. -/
def monthsBetween (s e : Date) : Int :=
  (e.year - s.year) * 12 + (e.month - s.month)

/-- The month total accumulated by `calculateTotalExperience`: per entry the
span from `startDate` to `endDate` (or to `now` when `current`), clamped to
zero from below. -/
def totalExperienceMonths (exps : List ExperienceEntry) (now : Date) : Int :=
  (exps.map fun exp =>
    max 0 (monthsBetween exp.startDate (if exp.current then now else exp.endDate))).sum

/-- `calculateTotalExperience`: total months over twelve, in fractional
years. -/
def calculateTotalExperience (exps : List ExperienceEntry) (now : Date) : ℚ :=
  (totalExperienceMonths exps now : ℚ) / 12

/-- The `jobTypeExpectation` lookup table of the scorer. -/
def jobTypeExpectation (t : String) : Option ℚ :=
  if t == "full-time" then some 2
  else if t == "part-time" then some 1
  else if t == "contract" then some 3
  else if t == "internship" then some 0
  else if t == "temporary" then some 1
  else none

/-- `jobTypeExpectation[job.jobType] || 2`: the JavaScript `||` falls back to
2 both for an unknown job type and for the falsy table value `0`. -/
def expectedYearsFor (t : String) : ℚ :=
  jsOrDefault (jobTypeExpectation t) 2

/-- Factor 2 of the scorer: 100 / 70 / 40 by comparing total experience with
the expected years for the job type. -/
def experienceScore (job : Job) (profile : JobSeekerProfile) (now : Date) : ℚ :=
  let totalYears := calculateTotalExperience profile.experience now
  let expectedYears := expectedYearsFor job.jobType
  if expectedYears ≤ totalYears then 100
  else if expectedYears * (1/2) ≤ totalYears then 70
  else 40

/-- Factor 3 guard body: some education entry whose field of study occurs in
the job title or description, or contains computer / engineering /
business. -/
def educationRelevant (job : Job) (profile : JobSeekerProfile) : Bool :=
  profile.education.any fun edu =>
    let field := jsToLower (optStr edu.fieldOfStudy)
    let title := jsToLower (optStr job.title)
    let description := jsToLower (optStr job.description)
    jsIncludes title field || jsIncludes description field ||
      jsIncludes field "computer" || jsIncludes field "engineering" ||
      jsIncludes field "business"

/-- Factor 3 of the scorer: 100 for relevant education, else 50. -/
def educationScore (job : Job) (profile : JobSeekerProfile) : ℚ :=
  if educationRelevant job profile then 100 else 50

/-- Factor 4 of the scorer (only evaluated when `profile.location` exists):
100 remote, 100 mutual city containment, 70 same country, else the default
partial match 50. -/
def locationScore (job : Job) (profile : JobSeekerProfile) : ℚ :=
  match profile.location with
  | none => 0
  | some loc =>
    let profileCity := jsToLower (optStr loc.city)
    let profileCountry := jsToLower (optStr loc.country)
    let jobCity := jsToLower (jobLocCity job)
    let jobCountry := jsToLower (jobLocCountry job)
    if jobLocRemote job then 100
    else if profileCity != "" && jobCity != "" then
      if jsIncludes jobCity profileCity || jsIncludes profileCity jobCity then 100
      else if jobCountry == profileCountry then 70
      else 50
    else if profileCountry != "" && jobCountry != "" && profileCountry == jobCountry then 70
    else 50

/-- Factor 5 of the scorer: 100 when the job type is preferred, or remote is
preferred and the job is remote; else 50. -/
def jobTypePrefScore (job : Job) (profile : JobSeekerProfile) : ℚ :=
  if profile.preferredJobTypes.contains job.jobType then 100
  else if profile.preferredJobTypes.contains "remote" && jobLocRemote job then 100
  else 50

/-- Guard of factor 1: `profile.skills && profile.skills.length > 0 &&
jobSkills.length > 0`. -/
def hasSkillsFactor (job : Job) (profile : JobSeekerProfile) : Bool :=
  !profile.skills.isEmpty && !(jobSkillsOf job).isEmpty

/-- Guard of factor 2: `profile.experience && profile.experience.length > 0`. -/
def hasExperienceFactor (profile : JobSeekerProfile) : Bool :=
  !profile.experience.isEmpty

/-- Guard of factor 3: `profile.education && profile.education.length > 0`. -/
def hasEducationFactor (profile : JobSeekerProfile) : Bool :=
  !profile.education.isEmpty

/-- Guard of factor 4: `profile.location` is truthy. -/
def hasLocationFactor (profile : JobSeekerProfile) : Bool :=
  profile.location.isSome

/-- Guard of factor 5: `profile.preferredJobTypes &&
profile.preferredJobTypes.length > 0`. -/
def hasTypePrefFactor (profile : JobSeekerProfile) : Bool :=
  !profile.preferredJobTypes.isEmpty

/-- The `score` accumulator of `calculateMatchScore` just before
normalization: each applicable factor contributes its sub-score times its
weight (0.4, 0.2, 0.15, 0.15, 0.1). -/
def matchScoreSum (job : Job) (profile : JobSeekerProfile) (now : Date) : ℚ :=
  (if hasSkillsFactor job profile then skillScore job profile * (2/5) else 0)
    + (if hasExperienceFactor profile then experienceScore job profile now * (1/5) else 0)
    + (if hasEducationFactor profile then educationScore job profile * (3/20) else 0)
    + (if hasLocationFactor profile then locationScore job profile * (3/20) else 0)
    + (if hasTypePrefFactor profile then jobTypePrefScore job profile * (1/10) else 0)

/-- The `factors` accumulator of `calculateMatchScore`: the sum of the
weights of the factors that applied. -/
def matchWeightSum (job : Job) (profile : JobSeekerProfile) : ℚ :=
  (if hasSkillsFactor job profile then (2/5 : ℚ) else 0)
    + (if hasExperienceFactor profile then (1/5 : ℚ) else 0)
    + (if hasEducationFactor profile then (3/20 : ℚ) else 0)
    + (if hasLocationFactor profile then (3/20 : ℚ) else 0)
    + (if hasTypePrefFactor profile then (1/10 : ℚ) else 0)

/-- `calculateMatchScore(job, profile)`: normalize by the applied weight when
`0 < factors < 1`, then round to the nearest integer. -/
def calculateMatchScore (job : Job) (profile : JobSeekerProfile) (now : Date) : Int :=
  let score := matchScoreSum job profile now
  let factors := matchWeightSum job profile
  round (if 0 < factors ∧ factors < 1 then score / factors else score)

/-- The skills push of `getMatchReasons`: at most one entry naming up to
three matched skills. -/
def skillReasons (job : Job) (profile : JobSeekerProfile) : List String :=
  if hasSkillsFactor job profile then
    let ms := matchedSkills job profile
    if 0 < ms.length then
      ["Skills match: " ++ String.intercalate ", " (ms.take 3)]
    else []
  else []

/-- The experience push of `getMatchReasons`: at most one entry printing the
rounded years. -/
def experienceReasons (profile : JobSeekerProfile) (now : Date) : List String :=
  if hasExperienceFactor profile then
    let totalYears := calculateTotalExperience profile.experience now
    if 0 < totalYears then
      [toString (round totalYears) ++ " years of experience"]
    else []
  else []

/-- The remote / location push of `getMatchReasons`. -/
def locationReasons (job : Job) (profile : JobSeekerProfile) : List String :=
  if jobLocRemote job then ["Remote work available"]
  else
    match profile.location with
    | some loc =>
      let profileCity := jsToLower (optStr loc.city)
      let jobCity := jsToLower (jobLocCity job)
      if profileCity != "" && jobCity != ""
          && (jsIncludes jobCity profileCity || jsIncludes profileCity jobCity) then
        ["Location matches preference"]
      else []
    | none => []

/-- The preferred-job-type push of `getMatchReasons`. -/
def typeReasons (job : Job) (profile : JobSeekerProfile) : List String :=
  if hasTypePrefFactor profile && profile.preferredJobTypes.contains job.jobType then
    ["Matches preferred job type: " ++ job.jobType]
  else []

/-- The salary push of `getMatchReasons`: requires a truthy expected salary,
truthy salary min and max, and salary max at least the expected min
defaulted to 0. -/
def salaryReasons (job : Job) (profile : JobSeekerProfile) : List String :=
  match profile.expectedSalary, job.salary with
  | some es, some sal =>
    if numTruthy sal.min && numTruthy sal.max then
      if jsOrDefault es.min 0 ≤ sal.max.getD 0 then ["Salary in expected range"]
      else []
    else []
  | _, _ => []

/-- `getMatchReasons(job, profile)`: the ordered reason list — skills,
experience, remote/location, preferred type, salary — with the fallback
`"New opportunity"` when nothing fired.  Each push block is modelled as the
(at most singleton) list it appends. -/
def getMatchReasons (job : Job) (profile : JobSeekerProfile) (now : Date) : List String :=
  let reasons :=
    skillReasons job profile ++ experienceReasons profile now ++ locationReasons job profile
      ++ typeReasons job profile ++ salaryReasons job profile
  if reasons.isEmpty then ["New opportunity"] else reasons

/-- The descending comparator `(a, b) => b.matchScore - a.matchScore` fed to
the stable array sort, as a relation. -/
def scoreDesc (a b : ScoredJob) : Prop := b.matchScore ≤ a.matchScore

instance : DecidableRel scoreDesc := fun a b =>
  inferInstanceAs (Decidable (b.matchScore ≤ a.matchScore))

instance : IsTotal ScoredJob scoreDesc :=
  ⟨fun a b => le_total b.matchScore a.matchScore⟩

instance : IsTrans ScoredJob scoreDesc :=
  ⟨fun _ _ _ h1 h2 => le_trans h2 h1⟩

/-- The Mongo sort `{ createdAt: -1 }` of the cold-start query, as a
relation on jobs. -/
def recentDesc (a b : Job) : Prop := b.createdAt ≤ a.createdAt

instance : DecidableRel recentDesc := fun a b =>
  inferInstanceAs (Decidable (b.createdAt ≤ a.createdAt))

instance : IsTotal Job recentDesc :=
  ⟨fun a b => le_total b.createdAt a.createdAt⟩

instance : IsTrans Job recentDesc :=
  ⟨fun _ _ _ h1 h2 => le_trans h2 h1⟩

/-- The descending comparator `(a, b) => b.score - a.score` of
`getSimilarJobs`, on (job, similarity score) pairs. -/
def simDesc (a b : Job × ℚ) : Prop := b.2 ≤ a.2

instance : DecidableRel simDesc := fun a b =>
  inferInstanceAs (Decidable (b.2 ≤ a.2))

instance : IsTotal (Job × ℚ) simDesc :=
  ⟨fun a b => le_total b.2 a.2⟩

instance : IsTrans (Job × ℚ) simDesc :=
  ⟨fun _ _ _ h1 h2 => le_trans h2 h1⟩

/-- `JobSeekerProfile.findOne({ user: userId })`. -/
def findProfile (db : DB) (userId : Nat) : Option JobSeekerProfile :=
  db.profiles.find? fun p => p.user == userId

/-- The job ids of `Application.find({ jobSeeker: userId })`. -/
def appliedJobIds (db : DB) (userId : Nat) : List Nat :=
  (db.applications.filter fun a => a.jobSeeker == userId).map (·.job)

/-- The query of active jobs whose id is not among the applied ids. -/
def candidateJobs (db : DB) (userId : Nat) : List Job :=
  db.jobs.filter fun j =>
    j.status == "active" && !((appliedJobIds db userId).contains j.id)

/-- One entry of the scored list built by `getJobRecommendations`. -/
def mkScoredJob (profile : JobSeekerProfile) (now : Date) (job : Job) : ScoredJob :=
  { job := job
    matchScore := calculateMatchScore job profile now
    matchReasons := getMatchReasons job profile now }

/-- `getJobRecommendations(userId, limit)`: cold-start fallback when no
profile exists, otherwise score the unapplied active jobs, sort descending
by score (stable) and truncate. -/
def getJobRecommendations (db : DB) (userId : Nat) (limit : Nat) (now : Date) :
    List ScoredJob :=
  match findProfile db userId with
  | none =>
    let jobs :=
      (List.insertionSort recentDesc (db.jobs.filter fun j => j.status == "active")).take
        limit
    jobs.map fun job => { job := job, matchScore := 50, matchReasons := ["New job posting"] }
  | some profile =>
    let scoredJobs := (candidateJobs db userId).map (mkScoredJob profile now)
    (List.insertionSort scoreDesc scoredJobs).take limit

/-- The per-candidate similarity accumulator of `getSimilarJobs`, built
sequentially exactly as the source adds to `score`. -/
def similarityScore (referenceJob job : Job) : ℚ :=
  let score0 : ℚ := 0
  let score1 := if job.jobType == referenceJob.jobType then score0 + 30 else score0
  let jobSkills := jobSkillsOf job
  let refSkills := jobSkillsOf referenceJob
  let score2 :=
    if !jobSkills.isEmpty && !refSkills.isEmpty then
      let jobReqs := jobSkills.map jsToLower
      let refReqs := refSkills.map jsToLower
      let overlap := jobReqs.filter fun r =>
        refReqs.any fun ref => jsIncludes ref r || jsIncludes r ref
      score1 + (overlap.length : ℚ) / ((max refReqs.length 1 : ℕ) : ℚ) * 40
    else score1
  let score3 :=
    match job.location, referenceJob.location with
    | some jl, some rl =>
      let jobCity := jsToLower (optStr jl.city)
      let refCity := jsToLower (optStr rl.city)
      if jobCity != "" && refCity != "" && jobCity == refCity then score2 + 15
      else if jl.remote && rl.remote then score2 + 15
      else score2
    | _, _ => score2
  let score4 :=
    match job.salary, referenceJob.salary with
    | some js, some rs =>
      let jobMid := (jsOrDefault js.min 0 + jsOrDefault js.max 0) / 2
      let refMid := (jsOrDefault rs.min 0 + jsOrDefault rs.max 0) / 2
      if 0 < refMid ∧ |jobMid - refMid| / refMid < 3/10 then score3 + 15
      else score3
    | _, _ => score3
  score4

/-- The `+30` employment-type term of the similarity score. -/
def simTypeScore (referenceJob job : Job) : ℚ :=
  if job.jobType == referenceJob.jobType then 30 else 0

/-- The skill-overlap term of the similarity score: the candidate
requirements matched by some reference requirement, over the reference
requirement count, times 40. -/
def simSkillScore (referenceJob job : Job) : ℚ :=
  if !(jobSkillsOf job).isEmpty && !(jobSkillsOf referenceJob).isEmpty then
    ((((jobSkillsOf job).map jsToLower).filter fun r =>
        ((jobSkillsOf referenceJob).map jsToLower).any fun ref =>
          jsIncludes ref r || jsIncludes r ref).length : ℚ)
      / ((max ((jobSkillsOf referenceJob).map jsToLower).length 1 : ℕ) : ℚ) * 40
  else 0

/-- The `+15` location term of the similarity score: equal nonempty
lowercased cities, else both remote (both locations must exist). -/
def simLocationScore (referenceJob job : Job) : ℚ :=
  match job.location, referenceJob.location with
  | some jl, some rl =>
    if jsToLower (optStr jl.city) != "" && jsToLower (optStr rl.city) != ""
        && jsToLower (optStr jl.city) == jsToLower (optStr rl.city) then 15
    else if jl.remote && rl.remote then 15
    else 0
  | _, _ => 0

/-- The `+15` salary term of the similarity score: midpoints within 30
percent of the reference midpoint, skipped when that midpoint is not
positive (both salary subdocuments must exist). -/
def simSalaryScore (referenceJob job : Job) : ℚ :=
  match job.salary, referenceJob.salary with
  | some js, some rs =>
    let jobMid := (jsOrDefault js.min 0 + jsOrDefault js.max 0) / 2
    let refMid := (jsOrDefault rs.min 0 + jsOrDefault rs.max 0) / 2
    if 0 < refMid ∧ |jobMid - refMid| / refMid < 3/10 then 15 else 0
  | _, _ => 0

/-- `Job.findById(jobId)`. -/
def findJobById (db : DB) (jobId : Nat) : Option Job :=
  db.jobs.find? fun j => j.id == jobId

/-- `getSimilarJobs(jobId, limit)`: empty when the reference job is absent,
otherwise score the other active jobs, sort descending, truncate, and strip
the scores. -/
def getSimilarJobs (db : DB) (jobId : Nat) (limit : Nat) : List Job :=
  match findJobById db jobId with
  | none => []
  | some referenceJob =>
    let jobs := db.jobs.filter fun j => !(j.id == jobId) && j.status == "active"
    let scoredJobs := jobs.map fun job => (job, similarityScore referenceJob job)
    ((List.insertionSort simDesc scoredJobs).take limit).map (·.1)

/-- When no factor applied (the weight accumulator stayed 0), the score
accumulator also stayed 0. -/
theorem matchScoreSum_eq_zero_of_weight_zero (job : Job) (profile : JobSeekerProfile)
    (now : Date) (h : matchWeightSum job profile = 0) :
    matchScoreSum job profile now = 0 := by
  unfold matchScoreSum
  unfold matchWeightSum at h
  split_ifs at h ⊢ <;> norm_num at h ⊢

/-- C5: when the applied-weight sum is strictly between 0 and 1 the
accumulated score is divided by it before rounding; when it is 1 (all five
factors applied) no division happens; when it is 0 the result is 0. -/
theorem claim5_normalization_policy (job : Job) (profile : JobSeekerProfile) (now : Date) :
    (0 < matchWeightSum job profile → matchWeightSum job profile < 1 →
      calculateMatchScore job profile now
        = round (matchScoreSum job profile now / matchWeightSum job profile))
    ∧ (matchWeightSum job profile = 1 →
      calculateMatchScore job profile now = round (matchScoreSum job profile now))
    ∧ (matchWeightSum job profile = 0 → calculateMatchScore job profile now = 0)
    ∧ (hasSkillsFactor job profile = true → hasExperienceFactor profile = true →
      hasEducationFactor profile = true → hasLocationFactor profile = true →
      hasTypePrefFactor profile = true → matchWeightSum job profile = 1) := by
  refine ⟨fun h1 h2 => ?_, fun h => ?_, fun h => ?_, fun g1 g2 g3 g4 g5 => ?_⟩
  · simp only [calculateMatchScore]
    rw [if_pos ⟨h1, h2⟩]
  · have hc : ¬(0 < matchWeightSum job profile ∧ matchWeightSum job profile < 1) := by
      rw [h]; norm_num
    simp only [calculateMatchScore]
    rw [if_neg hc]
  · have hc : ¬(0 < matchWeightSum job profile ∧ matchWeightSum job profile < 1) := by
      rw [h]; norm_num
    simp only [calculateMatchScore]
    rw [if_neg hc, matchScoreSum_eq_zero_of_weight_zero job profile now h]
    exact round_zero
  · unfold matchWeightSum
    rw [if_pos g1, if_pos g2, if_pos g3, if_pos g4, if_pos g5]
    norm_num

/-- C9: when the reference job id resolves to no job, `getSimilarJobs`
returns the empty list. -/
theorem claim9_similar_jobs_empty_when_reference_missing (db : DB) (jobId limit : Nat)
    (h : findJobById db jobId = none) : getSimilarJobs db jobId limit = [] := by
  simp [getSimilarJobs, h]

/-- A sample job used by concrete witnesses: active, full-time, no optional
data. -/
def jobPlain : Job :=
  { id := 1, title := none, description := none, jobType := "full-time",
    requirements := none, location := none, salary := none,
    status := "active", createdAt := 100 }

/-- Witness for C9: a store holding one job with id 1 has no job with id 2,
and `getSimilarJobs` on id 2 returns the empty list. -/
theorem claim9_witness :
    findJobById ⟨[jobPlain], [], []⟩ 2 = none
      ∧ getSimilarJobs ⟨[jobPlain], [], []⟩ 2 5 = [] :=
  ⟨rfl, claim9_similar_jobs_empty_when_reference_missing ⟨[jobPlain], [], []⟩ 2 5 rfl⟩

/-- An empty profile: no skills, work history, education, location,
preferences or expected salary. -/
def profEmpty : JobSeekerProfile :=
  { user := 7, skills := [], experience := [], education := [], location := none,
    preferredJobTypes := [], expectedSalary := none }

/-- A fixed evaluation instant for concrete inputs. -/
def date2024 : Date := ⟨2024, 1⟩

/-- Witness for C5 (no-factor branch): on an empty profile the applied
weight is 0 and the score is 0. -/
theorem claim5_witness :
    matchWeightSum jobPlain profEmpty = 0
      ∧ calculateMatchScore jobPlain profEmpty date2024 = 0 :=
  ⟨by simp [matchWeightSum, hasSkillsFactor, hasExperienceFactor, hasEducationFactor,
      hasLocationFactor, hasTypePrefFactor, profEmpty],
    (claim5_normalization_policy jobPlain profEmpty date2024).2.2.1
      (by simp [matchWeightSum, hasSkillsFactor, hasExperienceFactor, hasEducationFactor,
        hasLocationFactor, hasTypePrefFactor, profEmpty])⟩

/-- A job requiring the single skill java. -/
def jobJava : Job := { jobPlain with requirements := some ⟨some ["java"]⟩ }

/-- A profile whose two skills both match the single requirement java under
bidirectional substring containment. -/
def profTwoSkills : JobSeekerProfile := { profEmpty with skills := ["java", "javascript"] }

/-- C1 fails on the code: the docstring of `calculateMatchScore` promises a
score between 0 and 100, but with profile skills [java, javascript] against
the single requirement [java] both skills match, the skills fraction is 2/1,
and the returned score is 200. -/
theorem claim1_score_escapes_range :
    calculateMatchScore jobJava profTwoSkills date2024 = 200
      ∧ 100 < calculateMatchScore jobJava profTwoSkills date2024 := by
  have hms : (matchedSkills jobJava profTwoSkills).length = 2 := by decide
  have hreq : ((jobSkillsOf jobJava).map jsToLower).length = 1 := by decide
  have hskill : skillScore jobJava profTwoSkills = 200 := by
    unfold skillScore
    rw [hms, hreq]
    norm_num
  have hsum : matchScoreSum jobJava profTwoSkills date2024 = 80 := by
    unfold matchScoreSum
    rw [if_pos (show hasSkillsFactor jobJava profTwoSkills = true by decide),
      if_neg (show ¬hasExperienceFactor profTwoSkills = true by decide),
      if_neg (show ¬hasEducationFactor profTwoSkills = true by decide),
      if_neg (show ¬hasLocationFactor profTwoSkills = true by decide),
      if_neg (show ¬hasTypePrefFactor profTwoSkills = true by decide), hskill]
    norm_num
  have hweight : matchWeightSum jobJava profTwoSkills = 2/5 := by
    unfold matchWeightSum
    rw [if_pos (show hasSkillsFactor jobJava profTwoSkills = true by decide),
      if_neg (show ¬hasExperienceFactor profTwoSkills = true by decide),
      if_neg (show ¬hasEducationFactor profTwoSkills = true by decide),
      if_neg (show ¬hasLocationFactor profTwoSkills = true by decide),
      if_neg (show ¬hasTypePrefFactor profTwoSkills = true by decide)]
    norm_num
  have h200 : calculateMatchScore jobJava profTwoSkills date2024 = 200 := by
    simp only [calculateMatchScore]
    rw [hsum, hweight, if_pos (by norm_num : (0:ℚ) < 2/5 ∧ (2/5:ℚ) < 1)]
    norm_num [round_eq]
  exact ⟨h200, by rw [h200]; norm_num⟩

/-- An internship posting with no optional data. -/
def jobInternship : Job := { jobPlain with jobType := "internship" }

/-- A profile whose only data is one completed work-history entry spanning
zero months (January 2020 to January 2020). -/
def profBriefWork : JobSeekerProfile :=
  { profEmpty with experience := [⟨⟨2020, 1⟩, ⟨2020, 1⟩, false⟩] }

/-- C3 fails on the code for internships: the `jobTypeExpectation` table
itself maps internship to 0 expected years, but `table[jobType] || 2` treats
the falsy 0 as absent, so the effective expectation is 2 and a profile with
a non-empty but zero-month work history scores 40, not 100. -/
theorem claim3_internship_expectation_defaulted :
    jobTypeExpectation "internship" = some 0
      ∧ expectedYearsFor "internship" = 2
      ∧ calculateMatchScore jobInternship profBriefWork date2024 = 40 := by
  have hjte : jobTypeExpectation "internship" = some 0 := by
    simp [jobTypeExpectation]
  have hexp : expectedYearsFor "internship" = 2 := by
    unfold expectedYearsFor
    rw [hjte]
    simp [jsOrDefault]
  have hmonths : totalExperienceMonths profBriefWork.experience date2024 = 0 := by decide
  have hty : calculateTotalExperience profBriefWork.experience date2024 = 0 := by
    unfold calculateTotalExperience
    rw [hmonths]
    norm_num
  have hes : experienceScore jobInternship profBriefWork date2024 = 40 := by
    simp only [experienceScore]
    rw [hty, (show jobInternship.jobType = "internship" by rfl), hexp]
    norm_num
  have hsum : matchScoreSum jobInternship profBriefWork date2024 = 8 := by
    unfold matchScoreSum
    rw [if_neg (show ¬hasSkillsFactor jobInternship profBriefWork = true by decide),
      if_pos (show hasExperienceFactor profBriefWork = true by decide),
      if_neg (show ¬hasEducationFactor profBriefWork = true by decide),
      if_neg (show ¬hasLocationFactor profBriefWork = true by decide),
      if_neg (show ¬hasTypePrefFactor profBriefWork = true by decide), hes]
    norm_num
  have hweight : matchWeightSum jobInternship profBriefWork = 1/5 := by
    unfold matchWeightSum
    rw [if_neg (show ¬hasSkillsFactor jobInternship profBriefWork = true by decide),
      if_pos (show hasExperienceFactor profBriefWork = true by decide),
      if_neg (show ¬hasEducationFactor profBriefWork = true by decide),
      if_neg (show ¬hasLocationFactor profBriefWork = true by decide),
      if_neg (show ¬hasTypePrefFactor profBriefWork = true by decide)]
    norm_num
  refine ⟨hjte, hexp, ?_⟩
  simp only [calculateMatchScore]
  rw [hsum, hweight, if_pos (by norm_num : (0:ℚ) < 1/5 ∧ (1/5:ℚ) < 1)]
  norm_num [round_eq]

/-- A profile whose only data is one work-history entry marked current,
started in January 2020: its span is measured against the clock. -/
def profCurrentWork : JobSeekerProfile :=
  { profEmpty with experience := [⟨⟨2020, 1⟩, ⟨2020, 1⟩, true⟩] }

/-- The clock instant January 2020. -/
def date2020 : Date := ⟨2020, 1⟩

/-- C2 fails on the code as stated: `calculateTotalExperience` reads the
clock for entries marked current, so the same job and profile score 40 in
January 2020 but 100 in January 2024, and the reason lists differ as well. -/
theorem claim2_clock_counterexample :
    calculateMatchScore jobPlain profCurrentWork date2020 = 40
      ∧ calculateMatchScore jobPlain profCurrentWork date2024 = 100
      ∧ getMatchReasons jobPlain profCurrentWork date2020 = ["New opportunity"]
      ∧ getMatchReasons jobPlain profCurrentWork date2024 = ["4 years of experience"] := by
  have hgA : totalExperienceMonths profCurrentWork.experience date2020 = 0 := by decide
  have hgB : totalExperienceMonths profCurrentWork.experience date2024 = 48 := by decide
  have htyA : calculateTotalExperience profCurrentWork.experience date2020 = 0 := by
    unfold calculateTotalExperience; rw [hgA]; norm_num
  have htyB : calculateTotalExperience profCurrentWork.experience date2024 = 4 := by
    unfold calculateTotalExperience; rw [hgB]; norm_num
  have hexp : expectedYearsFor "full-time" = 2 := by
    simp [expectedYearsFor, jobTypeExpectation, jsOrDefault]
  have hjt : jobPlain.jobType = "full-time" := rfl
  have hesA : experienceScore jobPlain profCurrentWork date2020 = 40 := by
    simp only [experienceScore]
    rw [htyA, hjt, hexp]
    norm_num
  have hesB : experienceScore jobPlain profCurrentWork date2024 = 100 := by
    simp only [experienceScore]
    rw [htyB, hjt, hexp]
    norm_num
  have hguards :
      hasSkillsFactor jobPlain profCurrentWork = false
        ∧ hasExperienceFactor profCurrentWork = true
        ∧ hasEducationFactor profCurrentWork = false
        ∧ hasLocationFactor profCurrentWork = false
        ∧ hasTypePrefFactor profCurrentWork = false := by decide
  obtain ⟨g1, g2, g3, g4, g5⟩ := hguards
  have hweight : matchWeightSum jobPlain profCurrentWork = 1/5 := by
    unfold matchWeightSum
    rw [g1, g2, g3, g4, g5]
    norm_num
  have hscore : ∀ d : Date, ∀ es : ℚ, experienceScore jobPlain profCurrentWork d = es →
      matchScoreSum jobPlain profCurrentWork d = es * (1/5) := by
    intro d es hes
    unfold matchScoreSum
    rw [g1, g2, g3, g4, g5, hes]
    norm_num
  have hcalc : ∀ d : Date, ∀ es : ℚ, experienceScore jobPlain profCurrentWork d = es →
      calculateMatchScore jobPlain profCurrentWork d = round es := by
    intro d es hes
    simp only [calculateMatchScore]
    rw [hscore d es hes, hweight, if_pos (by norm_num : (0:ℚ) < 1/5 ∧ (1/5:ℚ) < 1)]
    norm_num
  have hloc : profCurrentWork.location = none := rfl
  have hsal : profCurrentWork.expectedSalary = none := rfl
  have hjsal : jobPlain.salary = none := rfl
  have hrem : jobLocRemote jobPlain = false := by decide
  refine ⟨?_, ?_, ?_, ?_⟩
  · rw [hcalc date2020 40 hesA]
    norm_num [round_eq]
  · rw [hcalc date2024 100 hesB]
    norm_num [round_eq]
  · simp [getMatchReasons, skillReasons, experienceReasons, locationReasons, typeReasons,
      salaryReasons, g1, g2, g5, htyA, hloc, hsal, hjsal, hrem]
  · have h04 : (0:ℚ) < 4 := by norm_num
    have hr4 : round ((4 : ℚ)) = 4 := by norm_num [round_eq]
    have hts : toString ((4 : ℤ)) = "4" := rfl
    simp [getMatchReasons, skillReasons, experienceReasons, locationReasons, typeReasons,
      salaryReasons, g1, g2, g5, htyB, hloc, hsal, hjsal, hrem, h04, hr4, hts]

/-- C2 amended: the scorer and the reason generator are pure functions of
job, profile and the clock; when no work-history entry is marked current the
clock is never consulted, so identical job and profile inputs give identical
score and identical reasons at any two instants. -/
theorem claim2_deterministic_without_current_entries (job : Job)
    (profile : JobSeekerProfile) (now now' : Date)
    (h : ∀ e ∈ profile.experience, e.current = false) :
    calculateMatchScore job profile now = calculateMatchScore job profile now'
      ∧ getMatchReasons job profile now = getMatchReasons job profile now' := by
  have hm : totalExperienceMonths profile.experience now
      = totalExperienceMonths profile.experience now' := by
    unfold totalExperienceMonths
    congr 1
    apply List.map_congr_left
    intro e he
    rw [h e he]
    simp
  have hty : calculateTotalExperience profile.experience now
      = calculateTotalExperience profile.experience now' := by
    unfold calculateTotalExperience
    rw [hm]
  have hes : experienceScore job profile now = experienceScore job profile now' := by
    simp only [experienceScore]
    rw [hty]
  have hsum : matchScoreSum job profile now = matchScoreSum job profile now' := by
    unfold matchScoreSum
    rw [hes]
  constructor
  · simp only [calculateMatchScore]
    rw [hsum]
  · have hER : experienceReasons profile now = experienceReasons profile now' := by
      simp only [experienceReasons]
      rw [hty]
    simp only [getMatchReasons]
    rw [hER]

/-- Witness for the amended C2: a profile whose one work-history entry is
not current scores and explains identically at two different instants. -/
theorem claim2_witness :
    calculateMatchScore jobPlain profBriefWork date2020
        = calculateMatchScore jobPlain profBriefWork date2024
      ∧ getMatchReasons jobPlain profBriefWork date2020
        = getMatchReasons jobPlain profBriefWork date2024 :=
  claim2_deterministic_without_current_entries jobPlain profBriefWork date2020 date2024
    (by decide)

/-- A reference job requiring only java, of type contract. -/
def refC4 : Job := { jobPlain with jobType := "contract", requirements := some ⟨some ["java"]⟩ }

/-- A candidate job of a different type whose two requirements both match
the reference requirement java by substring containment. -/
def candC4 : Job :=
  { jobPlain with jobType := "full-time", requirements := some ⟨some ["java", "javascript"]⟩ }

/-- C4 fails on the code as stated: with reference requirements [java] and
candidate requirements [java, javascript] (and no other signal) the
similarity score is 80 — the skill term alone exceeds the announced +40 cap,
because the matched-candidate count is divided by the reference count. -/
theorem claim4_skill_term_exceeds_cap :
    similarityScore refC4 candC4 = 80 ∧ 40 < similarityScore refC4 candC4 := by
  have h1 : (candC4.jobType == refC4.jobType) = false := by decide
  have h2 : (!(jobSkillsOf candC4).isEmpty && !(jobSkillsOf refC4).isEmpty) = true := by
    decide
  have hovl : (((jobSkillsOf candC4).map jsToLower).filter fun r =>
      ((jobSkillsOf refC4).map jsToLower).any fun ref =>
        jsIncludes ref r || jsIncludes r ref).length = 2 := by decide
  have hlen : ((jobSkillsOf refC4).map jsToLower).length = 1 := by decide
  have hlocC : candC4.location = none := rfl
  have hsalC : candC4.salary = none := rfl
  have h80 : similarityScore refC4 candC4 = 80 := by
    simp only [similarityScore, h1, h2, hlocC, hsalC, hovl, hlen]
    norm_num
  exact ⟨h80, by rw [h80]; norm_num⟩

/-- C4 amended: the similarity score is exactly the sum of the four terms —
+30 on equal employment type, 40 times the matched-candidate-requirement
fraction of the reference requirement count (which may exceed +40), +15 on
equal nonempty lowercased cities or joint remoteness, +15 on close salary
midpoints — with no cap applied to the skill term. -/
theorem claim4_similarity_decomposition (referenceJob job : Job) :
    similarityScore referenceJob job
      = simTypeScore referenceJob job + simSkillScore referenceJob job
        + simLocationScore referenceJob job + simSalaryScore referenceJob job := by
  simp only [similarityScore, simTypeScore, simSkillScore, simLocationScore,
    simSalaryScore]
  rcases job.location with _ | jl <;> rcases referenceJob.location with _ | rl <;>
    rcases job.salary with _ | js <;> rcases referenceJob.salary with _ | rs <;>
      dsimp only <;> split_ifs <;> ring

/-- The salary reason never coincides with a skills reason. -/
theorem salary_reason_ne_skills (x : String) :
    "Salary in expected range" ≠ "Skills match: " ++ x := by
  intro h
  have hd := congrArg (fun s => (String.data s).take 4) h
  simp only [String.data_append] at hd
  rw [List.take_append_of_le_length (by decide)] at hd
  exact absurd hd (by decide)

/-- The salary reason never coincides with an experience reason, whatever
number of years is printed. -/
theorem salary_reason_ne_years (x : String) :
    "Salary in expected range" ≠ x ++ " years of experience" := by
  intro h
  have hd := congrArg (fun s => ((String.data s).reverse).take 2) h
  simp only [String.data_append, List.reverse_append] at hd
  rw [List.take_append_of_le_length (by decide)] at hd
  exact absurd hd (by decide)

/-- The salary reason never coincides with a preferred-type reason, whatever
job type is printed. -/
theorem salary_reason_ne_type (x : String) :
    "Salary in expected range" ≠ "Matches preferred job type: " ++ x := by
  intro h
  have hd := congrArg (fun s => (String.data s).take 1) h
  simp only [String.data_append] at hd
  rw [List.take_append_of_le_length (by decide)] at hd
  exact absurd hd (by decide)

/-- C10 amended: `getMatchReasons` emits the salary reason exactly when the
profile has an expected salary, the job has a salary whose min and max are
both present and nonzero (JavaScript truthiness, so a present min of 0
suppresses the reason), and the salary max is at least the expected min
defaulted to 0; the expected maximum is never consulted. -/
theorem claim10_salary_reason_characterization (job : Job) (profile : JobSeekerProfile)
    (now : Date) :
    ("Salary in expected range" ∈ getMatchReasons job profile now)
      ↔ ∃ es sal, profile.expectedSalary = some es ∧ job.salary = some sal
        ∧ numTruthy sal.min = true ∧ numTruthy sal.max = true
        ∧ jsOrDefault es.min 0 ≤ sal.max.getD 0 := by
  have hA : "Salary in expected range" ∉ skillReasons job profile := by
    unfold skillReasons
    split_ifs <;> simp [salary_reason_ne_skills]
  have hB : "Salary in expected range" ∉ experienceReasons profile now := by
    unfold experienceReasons
    split_ifs <;> simp [salary_reason_ne_years]
  have hC : "Salary in expected range" ∉ locationReasons job profile := by
    unfold locationReasons
    split_ifs
    · simp
    · rcases profile.location with _ | loc
      · simp
      · dsimp only
        split_ifs <;> simp
  have hD : "Salary in expected range" ∉ typeReasons job profile := by
    unfold typeReasons
    split_ifs <;> simp [salary_reason_ne_type]
  have hS : ("Salary in expected range" ∈ salaryReasons job profile)
      ↔ ∃ es sal, profile.expectedSalary = some es ∧ job.salary = some sal
        ∧ numTruthy sal.min = true ∧ numTruthy sal.max = true
        ∧ jsOrDefault es.min 0 ≤ sal.max.getD 0 := by
    unfold salaryReasons
    rcases hes : profile.expectedSalary with _ | es <;> rcases hsal : job.salary with _ | sal
    · simp
    · simp
    · simp
    · dsimp only
      split_ifs with h1 h2
      · simp only [List.mem_singleton, true_iff]
        rw [Bool.and_eq_true] at h1
        exact ⟨es, sal, rfl, rfl, h1.1, h1.2, h2⟩
      · simp only [List.not_mem_nil, false_iff]
        rintro ⟨es', sal', hes', hsal', hmin, hmax, hle⟩
        cases hes'
        cases hsal'
        exact h2 hle
      · simp only [List.not_mem_nil, false_iff]
        rintro ⟨es', sal', hes', hsal', hmin, hmax, hle⟩
        cases hes'
        cases hsal'
        exact h1 (by rw [Bool.and_eq_true]; exact ⟨hmin, hmax⟩)
  rw [← hS]
  unfold getMatchReasons
  by_cases hE : (skillReasons job profile ++ experienceReasons profile now
      ++ locationReasons job profile ++ typeReasons job profile
      ++ salaryReasons job profile).isEmpty
  · rw [if_pos hE]
    rw [List.isEmpty_iff] at hE
    have hnil : salaryReasons job profile = [] := by
      rcases List.append_eq_nil.mp hE with ⟨-, h5⟩
      exact h5
    simp [hnil]
  · rw [if_neg hE]
    simp [List.mem_append, hA, hB, hC, hD]

/-- A job whose salary is present with min 0 and max 5000. -/
def jobZeroMin : Job := { jobPlain with salary := some ⟨some 0, some 5000⟩ }

/-- A profile with an expected salary subdocument carrying no bounds. -/
def profExpects : JobSeekerProfile := { profEmpty with expectedSalary := some ⟨none, none⟩ }

/-- C10 fails on the code as stated: with `salary.min` present but 0 the
truthiness guard `job.salary.min && job.salary.max` fails, so although the
expected salary exists, both salary bounds are present and the max 5000 is
at least the defaulted expected min 0, the salary reason is not emitted. -/
theorem claim10_zero_min_counterexample :
    jobZeroMin.salary = some ⟨some 0, some 5000⟩
      ∧ profExpects.expectedSalary = some ⟨none, none⟩
      ∧ jsOrDefault (SalaryRange.mk none none).min 0
        ≤ ((SalaryRange.mk (some 0) (some 5000)).max.getD 0)
      ∧ getMatchReasons jobZeroMin profExpects date2024 = ["New opportunity"] := by
  have hmin : numTruthy (some (0 : ℚ)) = false := by simp [numTruthy]
  have g1 : hasSkillsFactor jobZeroMin profExpects = false := by decide
  have g2 : hasExperienceFactor profExpects = false := by decide
  have g5 : hasTypePrefFactor profExpects = false := by decide
  have hrem : jobLocRemote jobZeroMin = false := by decide
  have hloc : profExpects.location = none := rfl
  have hES : profExpects.expectedSalary = some ⟨none, none⟩ := rfl
  have hS : jobZeroMin.salary = some ⟨some 0, some 5000⟩ := rfl
  refine ⟨rfl, rfl, ?_, ?_⟩
  · simp [jsOrDefault, Option.getD]
  · simp [getMatchReasons, skillReasons, experienceReasons, locationReasons, typeReasons,
      salaryReasons, g1, g2, g5, hrem, hloc, hES, hS, hmin]

/-- A stable sort leaves the sublist of any class of pairwise-tied elements
exactly where the input had it: filtering by a predicate whose holders are
all related both ways commutes with `insertionSort`. -/
theorem filter_insertionSort_eq {α : Type} (r : α → α → Prop) [DecidableRel r]
    (p : α → Bool) (l : List α) (hp : ∀ a b, p a = true → p b = true → r a b) :
    (List.insertionSort r l).filter p = l.filter p := by
  have hpair : (l.filter p).Pairwise r :=
    List.pairwise_of_forall_mem_list fun a ha b hb =>
      hp a b (List.of_mem_filter ha) (List.of_mem_filter hb)
  have hsub : (l.filter p).Sublist (List.insertionSort r l) :=
    List.sublist_insertionSort hpair (List.filter_sublist l)
  have hsub2 : ((l.filter p).filter p).Sublist ((List.insertionSort r l).filter p) :=
    hsub.filter p
  rw [List.filter_filter] at hsub2
  have hff : (l.filter fun a => p a && p a) = l.filter p := by
    simp [Bool.and_self]
  rw [hff] at hsub2
  have hlen : (l.filter p).length = ((List.insertionSort r l).filter p).length :=
    ((List.perm_insertionSort r l).filter p).length_eq.symm
  exact (hsub2.eq_of_length hlen).symm

/-- C6: with no profile, the output is the active jobs sorted by descending
`createdAt`, truncated to the limit, every entry carrying score 50 and the
single reason New job posting. -/
theorem claim6_cold_start_recency (db : DB) (userId limit : Nat) (now : Date)
    (h : findProfile db userId = none) :
    getJobRecommendations db userId limit now
      = ((List.insertionSort recentDesc (db.jobs.filter fun j => j.status == "active")).take
          limit).map
          (fun job => { job := job, matchScore := 50, matchReasons := ["New job posting"] })
      ∧ (getJobRecommendations db userId limit now).length ≤ limit
      ∧ List.Pairwise (fun a b => b.job.createdAt ≤ a.job.createdAt)
          (getJobRecommendations db userId limit now)
      ∧ ∀ r ∈ getJobRecommendations db userId limit now,
          r.matchScore = 50 ∧ r.matchReasons = ["New job posting"] := by
  have heq : getJobRecommendations db userId limit now
      = ((List.insertionSort recentDesc (db.jobs.filter fun j => j.status == "active")).take
          limit).map
          (fun job => { job := job, matchScore := 50, matchReasons := ["New job posting"] }) := by
    simp only [getJobRecommendations, h]
  refine ⟨heq, ?_, ?_, ?_⟩
  · rw [heq, List.length_map]
    exact List.length_take_le _ _
  · rw [heq]
    exact List.Pairwise.map _ (fun a b hab => hab)
      (List.Pairwise.sublist (List.take_sublist _ _)
        (List.sorted_insertionSort recentDesc _))
  · rw [heq]
    intro r hr
    obtain ⟨j, hj, rfl⟩ := List.mem_map.mp hr
    exact ⟨rfl, rfl⟩

/-- An older active posting, for the cold-start witness store. -/
def jobOlder : Job := { jobPlain with id := 2, createdAt := 50 }

/-- Witness for C6: a store with two active jobs and no profile for user 1
yields at most one recommendation when the limit is 1. -/
theorem claim6_witness :
    findProfile ⟨[jobPlain, jobOlder], [], []⟩ 1 = none
      ∧ (getJobRecommendations ⟨[jobPlain, jobOlder], [], []⟩ 1 1 date2024).length ≤ 1 :=
  ⟨rfl, (claim6_cold_start_recency ⟨[jobPlain, jobOlder], [], []⟩ 1 1 date2024 rfl).2.1⟩

/-- C7: with a profile, the output is the scored candidate list sorted by
descending match score with a stable sort — the entries of any one score
keep their candidate order — truncated to at most `limit` entries. -/
theorem claim7_ranked_stable_truncated (db : DB) (userId limit : Nat) (now : Date)
    (p : JobSeekerProfile) (h : findProfile db userId = some p) :
    getJobRecommendations db userId limit now
      = (List.insertionSort scoreDesc
          ((candidateJobs db userId).map (mkScoredJob p now))).take limit
      ∧ (getJobRecommendations db userId limit now).length ≤ limit
      ∧ List.Pairwise (fun a b => b.matchScore ≤ a.matchScore)
          (getJobRecommendations db userId limit now)
      ∧ ∀ s : Int,
          (List.insertionSort scoreDesc
              ((candidateJobs db userId).map (mkScoredJob p now))).filter
              (fun x => x.matchScore == s)
            = ((candidateJobs db userId).map (mkScoredJob p now)).filter
              (fun x => x.matchScore == s) := by
  have heq : getJobRecommendations db userId limit now
      = (List.insertionSort scoreDesc
          ((candidateJobs db userId).map (mkScoredJob p now))).take limit := by
    simp only [getJobRecommendations, h]
  refine ⟨heq, ?_, ?_, ?_⟩
  · rw [heq]
    exact List.length_take_le _ _
  · rw [heq]
    exact List.Pairwise.sublist (List.take_sublist _ _)
      (List.sorted_insertionSort scoreDesc _)
  · intro s
    refine filter_insertionSort_eq scoreDesc _ _ fun a b ha hb => ?_
    have h1 : a.matchScore = s := by simpa using ha
    have h2 : b.matchScore = s := by simpa using hb
    show b.matchScore ≤ a.matchScore
    rw [h1, h2]

/-- Witness for C7: a store with one active job and the empty profile for
user 7 yields at most one recommendation when the limit is 1. -/
theorem claim7_witness :
    findProfile ⟨[jobPlain], [profEmpty], []⟩ 7 = some profEmpty
      ∧ (getJobRecommendations ⟨[jobPlain], [profEmpty], []⟩ 7 1 date2024).length ≤ 1 :=
  ⟨rfl, (claim7_ranked_stable_truncated ⟨[jobPlain], [profEmpty], []⟩ 7 1 date2024
    profEmpty rfl).2.1⟩

/-- C8: with a profile, no recommended job carries an id the user already
applied to (stated both element-wise and as an empty filter). -/
theorem claim8_applied_jobs_excluded (db : DB) (userId limit : Nat) (now : Date)
    (p : JobSeekerProfile) (h : findProfile db userId = some p) :
    (∀ r ∈ getJobRecommendations db userId limit now,
        r.job.id ∉ appliedJobIds db userId)
      ∧ (getJobRecommendations db userId limit now).filter
          (fun r => (appliedJobIds db userId).contains r.job.id) = [] := by
  have heq : getJobRecommendations db userId limit now
      = (List.insertionSort scoreDesc
          ((candidateJobs db userId).map (mkScoredJob p now))).take limit := by
    simp only [getJobRecommendations, h]
  have hmain : ∀ r ∈ getJobRecommendations db userId limit now,
      r.job.id ∉ appliedJobIds db userId := by
    intro r hr
    rw [heq] at hr
    have hr2 := List.mem_of_mem_take hr
    have hr3 : r ∈ (candidateJobs db userId).map (mkScoredJob p now) :=
      (List.perm_insertionSort scoreDesc _).mem_iff.mp hr2
    obtain ⟨j, hj, rfl⟩ := List.mem_map.mp hr3
    have hj2 := (List.mem_filter.mp hj).2
    rw [Bool.and_eq_true] at hj2
    have hc : ((appliedJobIds db userId).contains j.id) = false := by
      simpa using hj2.2
    show j.id ∉ appliedJobIds db userId
    simpa using hc
  refine ⟨hmain, ?_⟩
  rw [List.filter_eq_nil_iff]
  intro r hr
  simpa using hmain r hr

/-- Witness for C8: user 7 has applied to job 1, which is the only job in
the store; the filter for applied ids over the output is empty. -/
theorem claim8_witness :
    findProfile ⟨[jobPlain], [profEmpty], [⟨7, 1⟩]⟩ 7 = some profEmpty
      ∧ (getJobRecommendations ⟨[jobPlain], [profEmpty], [⟨7, 1⟩]⟩ 7 5 date2024).filter
          (fun r => (appliedJobIds ⟨[jobPlain], [profEmpty], [⟨7, 1⟩]⟩ 7).contains r.job.id)
        = [] :=
  ⟨rfl, (claim8_applied_jobs_excluded ⟨[jobPlain], [profEmpty], [⟨7, 1⟩]⟩ 7 5 date2024
    profEmpty rfl).2⟩
